import Mathlib

/-!
Verification development for the Windows-Use enhanced agent core.

Shallow embedding of:
  * `src/windows_use/agent/enhanced_service.py`
      (`LoopDetector`, `EnhancedAgent.action`, `EnhancedAgent.answer`,
       `EnhancedAgent.main_controller`)
  * `src/windows_use/agent/tools/enhanced_service.py`
      (`InteractionStrategy`, `InteractionTracker`, `enhanced_click_tool`)

Python dicts become total functions with the default built in
(`d.get(k, 0)` becomes `f k` with `f` defaulting to `0` off the updated
keys); mutation becomes explicit state passing; `time.time()` stamps are
abstract `Nat`s (every comparison in the source ignores them); the
outcome of a real UI interaction is an environment parameter.
-/

namespace WindowsUse

/-- A parameter value as it appears in an action's `params` dict:
integers, strings and coordinate pairs cover every claim input. -/
inductive PyVal where
  | int (n : Int)
  | str (s : String)
  | pair (p : Int × Int)
deriving DecidableEq, Repr

/-- The `ActionPattern` dataclass: `{action_name, params, timestamp}`.
Params are the dict entries in insertion order. -/
structure ActionPattern where
  action_name : String
  params : List (String × PyVal)
  timestamp : Nat
deriving DecidableEq, Repr

/-- State of `LoopDetector.__init__(max_history=10, pattern_threshold=3)`:
`action_history` is a `deque(maxlen=max_history)`, oldest first. -/
structure LoopDetector where
  max_history : Nat
  pattern_threshold : Nat
  action_history : List ActionPattern
deriving Repr

/-- Python `deque(maxlen=m).append(x)`: append on the right, evicting from the
left when capacity is exceeded. -/
def dequeAppend (maxlen : Nat) (xs : List ActionPattern) (x : ActionPattern) :
    List ActionPattern :=
  let ys := xs ++ [x]
  if ys.length > maxlen then ys.drop (ys.length - maxlen) else ys

/-- Source `LoopDetector._actions_identical`: equality on name and params,
timestamp excluded. -/
def actions_identical (a b : ActionPattern) : Bool :=
  a.action_name == b.action_name && a.params == b.params

/-- Source `LoopDetector._detect_alternating_pattern`: on fewer than 4 actions
return False; otherwise compare positions 0/2, 1/3 and require 0 and 1
to differ. -/
def detect_alternating_pattern (actions : List ActionPattern) : Bool :=
  if actions.length < 4 then false
  else
    match actions with
    | a0 :: a1 :: a2 :: a3 :: _ =>
        actions_identical a0 a2 && actions_identical a1 a3 &&
          !(actions_identical a0 a1)
    | _ => false

/-- The check `all(self._actions_identical(recent[0], a) for a in recent)`:
Python `all` over an empty generator is True and `recent[0]` is never
evaluated in that case. -/
def recent_all_identical (recent : List ActionPattern) : Bool :=
  match recent with
  | [] => true
  | a :: rest => (a :: rest).all (fun b => actions_identical a b)

/-- Source `LoopDetector.add_action`: append to history; once history holds at
least `pattern_threshold` entries, take the last `pattern_threshold`
entries and flag a loop if they are pairwise identical, or if that slice
has length at least 4 and alternates A-B-A-B. Returns the updated
detector and the flag. -/
def add_action (d : LoopDetector) (action_name : String)
    (params : List (String × PyVal)) (now : Nat) : LoopDetector × Bool :=
  let hist := dequeAppend d.max_history d.action_history
    ⟨action_name, params, now⟩
  let d2 : LoopDetector := { d with action_history := hist }
  let detected :=
    if hist.length ≥ d.pattern_threshold then
      let recent := hist.drop (hist.length - d.pattern_threshold)
      if recent_all_identical recent then true
      else if recent.length ≥ 4 && detect_alternating_pattern recent then true
      else false
    else false
  (d2, detected)

/-- Source `LoopDetector.get_suggested_alternatives`: the fixed list returned
when a loop is detected. -/
def get_suggested_alternatives : List String :=
  [ "Try a different click location nearby",
    "Use keyboard navigation (Tab, Enter, Arrow keys)",
    "Search for alternative UI elements",
    "Use text-based input methods",
    "Wait for UI to stabilize before retrying",
    "Consider if the task approach needs to be changed" ]

/-- A fresh `LoopDetector()` with the default configuration K=10, M=3. -/
def freshDetector : LoopDetector :=
  { max_history := 10, pattern_threshold := 3, action_history := [] }

/-- Feed a list of (name, params) actions through a detector, collecting
the boolean returned by each `add_action` call. -/
def runDetector (d : LoopDetector) :
    List (String × List (String × PyVal)) → List Bool
  | [] => []
  | (n, p) :: rest =>
      let r := add_action d n p 0
      r.2 :: runDetector r.1 rest

/-- Claim C5: feeding three structurally identical actions (same name
and params, arbitrary timestamps) into a freshly constructed
LoopDetector with the default configuration returns False on the 1st
and 2nd calls and True on the 3rd. -/
theorem loop_detector_exact_repeat_third_call (name : String)
    (params : List (String × PyVal)) (t1 t2 t3 : Nat) :
    (add_action freshDetector name params t1).2 = false ∧
    (add_action (add_action freshDetector name params t1).1
        name params t2).2 = false ∧
    (add_action (add_action (add_action freshDetector name params t1).1
        name params t2).1 name params t3).2 = true := by
  refine ⟨?_, ?_, ?_⟩ <;>
    simp [add_action, freshDetector, dequeAppend, recent_all_identical,
      actions_identical]

/-- Claim C1 (failing input): feeding A,B,A,B with A ≠ B into a fresh
default LoopDetector returns False on every call, including the 4th:
the alternating-pattern branch inspects only the last
`pattern_threshold = 3` actions, so its `length ≥ 4` guard never holds
with the default configuration. -/
theorem loop_detector_alternating_never_fires :
    (ActionPattern.mk "A" [] 0 ≠ ActionPattern.mk "B" [] 0) ∧
    runDetector freshDetector
      [("A", []), ("B", []), ("A", []), ("B", [])] =
      [false, false, false, false] := by
  constructor
  · decide
  · rfl

/-- The `InteractionStrategy` enum, in declaration order: note the source
declares five members, including `TEXT_BASED`. -/
inductive InteractionStrategy where
  | DIRECT_CLICK
  | KEYBOARD_NAV
  | TEXT_BASED
  | ELEMENT_SEARCH
  | ALTERNATIVE_COORDINATES
deriving DecidableEq, Repr

/-- Python `list(InteractionStrategy)`: the members in declaration order. -/
def allStrategies : List InteractionStrategy :=
  [ .DIRECT_CLICK, .KEYBOARD_NAV, .TEXT_BASED, .ELEMENT_SEARCH,
    .ALTERNATIVE_COORDINATES ]

/-- The `strategy.value` strings from the enum declaration. -/
def strategyValue : InteractionStrategy → String
  | .DIRECT_CLICK => "direct_click"
  | .KEYBOARD_NAV => "keyboard_nav"
  | .TEXT_BASED => "text_based"
  | .ELEMENT_SEARCH => "element_search"
  | .ALTERNATIVE_COORDINATES => "alternative_coordinates"

/-- One entry of `InteractionTracker.action_history`. -/
structure HistEntry where
  location : Int × Int
  strategy : InteractionStrategy
  success : Bool
  timestamp : Nat
deriving DecidableEq, Repr

/-- The `InteractionTracker` dataclass. The two dict fields are modelled as
total functions with the dict default built in: `location_attempts`
defaults to 0 (`get(location, 0)`), `failed_strategies` to the empty
list (`get(location, [])`). -/
structure InteractionTracker where
  location_attempts : Int × Int → Nat
  action_history : List HistEntry
  failed_strategies : Int × Int → List InteractionStrategy
  consecutive_failures : Nat
  last_successful_strategy : Option InteractionStrategy

/-- A fresh `InteractionTracker()` with all fields at their defaults. -/
def freshTracker : InteractionTracker :=
  { location_attempts := fun _ => 0
    action_history := []
    failed_strategies := fun _ => []
    consecutive_failures := 0
    last_successful_strategy := none }

/-- Source `InteractionTracker.record_attempt(location, strategy, success)`:
bump the per-location attempt count; on failure append the strategy to
that location's failed list and increment the global failure counter;
on success zero the counter and remember the strategy; append to the
bounded (last 10) action history. -/
def record_attempt (t : InteractionTracker) (location : Int × Int)
    (strategy : InteractionStrategy) (success : Bool) (now : Nat) :
    InteractionTracker :=
  let t1 : InteractionTracker :=
    { t with location_attempts :=
        fun l => if l = location then t.location_attempts location + 1
                 else t.location_attempts l }
  let t2 : InteractionTracker :=
    if !success then
      { t1 with
          failed_strategies :=
            fun l => if l = location
                     then t1.failed_strategies location ++ [strategy]
                     else t1.failed_strategies l
          consecutive_failures := t1.consecutive_failures + 1 }
    else
      { t1 with consecutive_failures := 0
                last_successful_strategy := some strategy }
  let hist := t2.action_history ++
    [⟨location, strategy, success, now⟩]
  { t2 with action_history :=
      if hist.length > 10 then hist.drop (hist.length - 10) else hist }

/-- Source `InteractionTracker.should_try_alternative(location)`:
`location_attempts.get(location, 0) >= 2 or consecutive_failures >= 3`. -/
def should_try_alternative (t : InteractionTracker)
    (location : Int × Int) : Bool :=
  decide (t.location_attempts location ≥ 2) ||
    decide (t.consecutive_failures ≥ 3)

/-- Source `InteractionTracker.get_available_strategies(location)`: all enum
members, in declaration order, that are not in the failed list for this
exact location. -/
def get_available_strategies (t : InteractionTracker)
    (location : Int × Int) : List InteractionStrategy :=
  let failed := t.failed_strategies location
  allStrategies.filter (fun s => !failed.contains s)

/-- Claim C7: `record_attempt` bumps `location_attempts[location]` by
exactly one and leaves other locations untouched; on success it zeroes
`consecutive_failures`, on failure it increments it and appends the
strategy to `failed_strategies[location]`. -/
theorem record_attempt_updates (t : InteractionTracker)
    (location : Int × Int) (strategy : InteractionStrategy)
    (success : Bool) (now : Nat) :
    (record_attempt t location strategy success now).location_attempts
        location = t.location_attempts location + 1 ∧
    (∀ l, l ≠ location →
      (record_attempt t location strategy success now).location_attempts l
        = t.location_attempts l) ∧
    (record_attempt t location strategy success now).consecutive_failures
      = (if success then 0 else t.consecutive_failures + 1) ∧
    (record_attempt t location strategy success now).failed_strategies
        location =
      (if success then t.failed_strategies location
       else t.failed_strategies location ++ [strategy]) := by
  refine ⟨?_, fun l hl => ?_, ?_, ?_⟩
  · cases success <;> simp [record_attempt]
  · cases success <;> simp [record_attempt, hl]
  · cases success <;> simp [record_attempt]
  · cases success <;> simp [record_attempt]

/-- Witness for C7: a failed attempt on a fresh tracker increments the
global failure counter and records the failed strategy. -/
theorem record_attempt_updates_witness :
    (record_attempt freshTracker (0, 0) .DIRECT_CLICK false
        0).consecutive_failures = freshTracker.consecutive_failures + 1 ∧
    (record_attempt freshTracker (3, 4) .KEYBOARD_NAV false
        0).location_attempts (0, 0) =
      freshTracker.location_attempts (0, 0) := by
  constructor
  · have h := record_attempt_updates freshTracker (0, 0) .DIRECT_CLICK
      false 0
    simpa using h.2.2.1
  · have h := record_attempt_updates freshTracker (3, 4) .KEYBOARD_NAV
      false 0
    exact h.2.1 (0, 0) (by decide)

/-- Claim C8: `should_try_alternative` is True exactly when the location
has at least 2 recorded attempts or there are at least 3 global
consecutive failures; in particular it is True after two failed
attempts at a location, and True at a brand-new location after three
failures recorded anywhere. -/
theorem should_try_alternative_iff (t : InteractionTracker)
    (loc loc2 : Int × Int) (s1 s2 s3 : InteractionStrategy)
    (n1 n2 n3 : Nat) :
    (should_try_alternative t loc = true ↔
      2 ≤ t.location_attempts loc ∨ 3 ≤ t.consecutive_failures) ∧
    should_try_alternative
      (record_attempt (record_attempt freshTracker loc s1 false n1)
        loc s2 false n2) loc = true ∧
    should_try_alternative
      (record_attempt (record_attempt
        (record_attempt freshTracker loc s1 false n1)
        loc s2 false n2) loc s3 false n3) loc2 = true := by
  refine ⟨?_, ?_, ?_⟩
  · simp [should_try_alternative]
  · simp [should_try_alternative, record_attempt, freshTracker]
  · simp [should_try_alternative, record_attempt, freshTracker]

/-- Witness for C8: a fresh tracker with three consecutive failures on
the books triggers the alternative path at a never-seen location. -/
theorem should_try_alternative_iff_witness :
    should_try_alternative
      { freshTracker with consecutive_failures := 3 } (7, 7) = true :=
  (should_try_alternative_iff
    { freshTracker with consecutive_failures := 3 } (7, 7) (0, 0)
    .DIRECT_CLICK .DIRECT_CLICK .DIRECT_CLICK 0 0 0).1.mpr
    (Or.inr (by decide))

/-- Claim C10: two successful attempts at the same location, with no
failure anywhere, already make `should_try_alternative` True there:
the per-location counter counts attempts regardless of outcome. -/
theorem two_successes_force_alternative (loc : Int × Int)
    (s1 s2 : InteractionStrategy) (n1 n2 : Nat) :
    should_try_alternative
      (record_attempt (record_attempt freshTracker loc s1 true n1)
        loc s2 true n2) loc = true := by
  simp [should_try_alternative, record_attempt, freshTracker]

/-- A tracker on which every enum strategy, `TEXT_BASED` included, has
failed at every location. -/
def allFailedTracker : InteractionTracker :=
  { freshTracker with failed_strategies := fun _ => allStrategies }

/-- Claim C2 counterexample: on a fresh tracker the returned list is
not the four-strategy set the claim names (it also contains
`TEXT_BASED`); and when every enum strategy has failed the function
returns the empty list, not `[DIRECT_CLICK]` — the reset lives in the
caller `enhanced_click_tool`, not in `get_available_strategies`. -/
theorem get_available_strategies_counterexample :
    get_available_strategies freshTracker (0, 0) ≠
      [.DIRECT_CLICK, .KEYBOARD_NAV, .ELEMENT_SEARCH,
        .ALTERNATIVE_COORDINATES] ∧
    InteractionStrategy.TEXT_BASED ∈
      get_available_strategies freshTracker (0, 0) ∧
    get_available_strategies allFailedTracker (0, 0) = [] := by
  refine ⟨?_, ?_, ?_⟩ <;> decide

/-- Python tuple repr of a location, as interpolated into messages. -/
def locRepr (loc : Int × Int) : String :=
  "(" ++ toString loc.1 ++ ", " ++ toString loc.2 ++ ")"

/-- The fixed preference order the tool iterates
(`strategy_order` local in `enhanced_click_tool`). -/
def strategy_order : List InteractionStrategy :=
  [ .ELEMENT_SEARCH, .KEYBOARD_NAV, .ALTERNATIVE_COORDINATES,
    .DIRECT_CLICK ]

/-- Message returned on the first validated success. -/
def success_msg (s : InteractionStrategy) (m : String) : String :=
  "SUCCESS with " ++ strategyValue s ++ ": " ++ m

/-- Message returned when every strategy in the loop failed. -/
def exhausted_msg (loc : Int × Int) : String :=
  "FAILED: All interaction strategies exhausted for location " ++
    locRepr loc ++
    ". Consider using different coordinates or manual intervention."

/-- The `if not available_strategies` branch of `enhanced_click_tool`:
when every strategy has failed at the location, clear that location in
`failed_strategies` and fall back to `[DIRECT_CLICK]`; otherwise keep
the tracker and the available list unchanged. -/
def reset_if_exhausted (t : InteractionTracker) (loc : Int × Int) :
    InteractionTracker × List InteractionStrategy :=
  let available := get_available_strategies t loc
  if available.isEmpty then
    ({ t with failed_strategies :=
        fun l => if l = loc then [] else t.failed_strategies l },
      [InteractionStrategy.DIRECT_CLICK])
  else (t, available)

/-- The `for strategy in strategy_order` loop of `enhanced_click_tool`.
`env` gives each strategy's attempt outcome (success flag and message)
for this call. Returns the threaded tracker, the returned string, and
the sequence of `record_attempt` calls as (strategy, success) pairs.
When the loop falls through, one final `record_attempt(loc,
DIRECT_CLICK, False)` is issued and the exhausted message returned. -/
def try_strategies (env : InteractionStrategy → Bool × String)
    (loc : Int × Int) (now : Nat)
    (available : List InteractionStrategy) :
    InteractionTracker → List InteractionStrategy →
      InteractionTracker × String × List (InteractionStrategy × Bool)
  | t, [] =>
      (record_attempt t loc .DIRECT_CLICK false now, exhausted_msg loc,
        [(.DIRECT_CLICK, false)])
  | t, s :: rest =>
      if available.contains s then
        let r := env s
        let t2 := record_attempt t loc s r.1 now
        if r.1 then (t2, success_msg s r.2, [(s, true)])
        else
          let next := try_strategies env loc now available t2 rest
          (next.1, next.2.1, (s, false) :: next.2.2)
      else try_strategies env loc now available t rest

/-- Source `enhanced_click_tool(loc, ...)`: if `should_try_alternative(loc)`,
run the multi-strategy loop over the fixed order after the possible
exhaustion reset; otherwise attempt only the direct click, record it,
and return its message (prefixed with an initial-failure notice when it
failed). -/
def enhanced_click_tool (env : InteractionStrategy → Bool × String)
    (loc : Int × Int) (now : Nat) (t : InteractionTracker) :
    InteractionTracker × String × List (InteractionStrategy × Bool) :=
  if should_try_alternative t loc then
    let ra := reset_if_exhausted t loc
    try_strategies env loc now ra.2 ra.1 strategy_order
  else
    let r := env .DIRECT_CLICK
    let t2 := record_attempt t loc .DIRECT_CLICK r.1 now
    if r.1 then (t2, r.2, [(.DIRECT_CLICK, r.1)])
    else
      (t2, "Initial click failed: " ++ r.2 ++
        ". Will try alternatives on next attempt.",
        [(.DIRECT_CLICK, r.1)])

/-- Spec-side: the first strategy in the iteration order that
validates successfully, if any. -/
def spec_first_success (env : InteractionStrategy → Bool × String)
    (ordered : List InteractionStrategy) : Option InteractionStrategy :=
  ordered.find? (fun s => (env s).1)

/-- Spec-side: the message the spec promises — a success message for
the first validated strategy, else the exhausted message. -/
def spec_msg (env : InteractionStrategy → Bool × String)
    (loc : Int × Int) (ordered : List InteractionStrategy) : String :=
  match spec_first_success env ordered with
  | some s => success_msg s (env s).2
  | none => exhausted_msg loc

/-- Spec-side: the recorded attempts the spec promises — every
attempted strategy with its outcome, stopping at the first success,
plus one final failure record when none succeeded. -/
def spec_trace (env : InteractionStrategy → Bool × String)
    (ordered : List InteractionStrategy) :
    List (InteractionStrategy × Bool) :=
  match spec_first_success env ordered with
  | some s =>
      (ordered.takeWhile (fun a => !(env a).1)).map (fun a => (a, false))
        ++ [(s, true)]
  | none => ordered.map (fun a => (a, false)) ++ [(.DIRECT_CLICK, false)]

theorem spec_msg_cons_fail (env : InteractionStrategy → Bool × String)
    (loc : Int × Int) (s : InteractionStrategy)
    (fr : List InteractionStrategy) (hs : (env s).1 = false) :
    spec_msg env loc (s :: fr) = spec_msg env loc fr := by
  simp [spec_msg, spec_first_success, hs]

theorem spec_trace_cons_fail (env : InteractionStrategy → Bool × String)
    (s : InteractionStrategy) (fr : List InteractionStrategy)
    (hs : (env s).1 = false) :
    spec_trace env (s :: fr) = (s, false) :: spec_trace env fr := by
  simp only [spec_trace, spec_first_success]
  rw [List.find?_cons_of_neg _ (by simp [hs])]
  cases h : List.find? (fun a => (env a).1) fr <;>
    simp [List.takeWhile_cons, hs]

theorem spec_msg_cons_succ (env : InteractionStrategy → Bool × String)
    (loc : Int × Int) (s : InteractionStrategy)
    (fr : List InteractionStrategy) (hs : (env s).1 = true) :
    spec_msg env loc (s :: fr) = success_msg s (env s).2 := by
  simp [spec_msg, spec_first_success, hs]

theorem spec_trace_cons_succ (env : InteractionStrategy → Bool × String)
    (s : InteractionStrategy) (fr : List InteractionStrategy)
    (hs : (env s).1 = true) :
    spec_trace env (s :: fr) = [(s, true)] := by
  simp [spec_trace, spec_first_success, hs, List.takeWhile_cons]

/-- The strategy loop meets its spec-side description: the returned
message is the first validated success (else exhaustion), the record
trace lists every attempted strategy with its outcome plus the final
failure record, and the final tracker is the fold of `record_attempt`
over that trace. -/
theorem try_strategies_spec (env : InteractionStrategy → Bool × String)
    (loc : Int × Int) (now : Nat)
    (available : List InteractionStrategy) :
    ∀ (l : List InteractionStrategy) (t : InteractionTracker),
      (try_strategies env loc now available t l).2.1 =
        spec_msg env loc (l.filter (fun s => available.contains s)) ∧
      (try_strategies env loc now available t l).2.2 =
        spec_trace env (l.filter (fun s => available.contains s)) ∧
      (try_strategies env loc now available t l).1 =
        (try_strategies env loc now available t l).2.2.foldl
          (fun acc p => record_attempt acc loc p.1 p.2 now) t := by
  intro l
  induction l with
  | nil =>
      intro t
      simp [try_strategies, spec_msg, spec_trace, spec_first_success]
  | cons s rest ih =>
      intro t
      by_cases hm : s ∈ available
      · have hf : List.filter (fun a => available.contains a) (s :: rest)
            = s :: List.filter (fun a => available.contains a) rest := by
          simp [List.filter_cons, hm]
        by_cases hs : (env s).1 = true
        · have hts : try_strategies env loc now available t (s :: rest)
              = (record_attempt t loc s true now,
                  success_msg s (env s).2, [(s, true)]) := by
            simp [try_strategies, hm, hs]
          rw [hts, hf, spec_msg_cons_succ env loc s _ hs,
            spec_trace_cons_succ env s _ hs]
          exact ⟨rfl, rfl, rfl⟩
        · have hs2 : (env s).1 = false := by
            simpa using hs
          have hts : try_strategies env loc now available t (s :: rest)
              = ((try_strategies env loc now available
                    (record_attempt t loc s false now) rest).1,
                  (try_strategies env loc now available
                    (record_attempt t loc s false now) rest).2.1,
                  (s, false) :: (try_strategies env loc now available
                    (record_attempt t loc s false now) rest).2.2) := by
            simp [try_strategies, hm, hs2]
          have h := ih (record_attempt t loc s false now)
          rw [hts, hf, spec_msg_cons_fail env loc s _ hs2,
            spec_trace_cons_fail env s _ hs2]
          refine ⟨h.1, ?_, ?_⟩
          · rw [h.2.1]
          · simpa using h.2.2
      · have hf : List.filter (fun a => available.contains a) (s :: rest)
            = List.filter (fun a => available.contains a) rest := by
          simp [List.filter_cons, hm]
        have hts : try_strategies env loc now available t (s :: rest)
            = try_strategies env loc now available t rest := by
          simp [try_strategies, hm]
        rw [hts, hf]
        exact ih t

/-- Claim C2 (amended): `get_available_strategies` returns exactly the
enum members (all five, `TEXT_BASED` included) not in
`failed_strategies[location]`, without touching the tracker; the
empty-case reset to `[DIRECT_CLICK]` with the location's failed list
cleared is performed by the caller `enhanced_click_tool`. -/
theorem available_strategies_amended (t : InteractionTracker)
    (loc : Int × Int) :
    (∀ s, s ∈ get_available_strategies t loc ↔
      s ∈ allStrategies ∧ s ∉ t.failed_strategies loc) ∧
    ((get_available_strategies t loc).isEmpty = true →
      (reset_if_exhausted t loc).2 = [.DIRECT_CLICK] ∧
      (reset_if_exhausted t loc).1.failed_strategies loc = []) ∧
    ((get_available_strategies t loc).isEmpty = false →
      reset_if_exhausted t loc = (t, get_available_strategies t loc)) := by
  refine ⟨?_, ?_, ?_⟩
  · intro s
    simp [get_available_strategies, List.mem_filter]
  · intro h
    simp [reset_if_exhausted, h]
  · intro h
    simp [reset_if_exhausted, h]

/-- Witness for the amended C2: with every strategy failed everywhere,
the caller-side reset yields `[DIRECT_CLICK]` and clears the location;
on a fresh tracker `TEXT_BASED` is among the available strategies. -/
theorem available_strategies_amended_witness :
    ((reset_if_exhausted allFailedTracker (0, 0)).2 =
        [InteractionStrategy.DIRECT_CLICK] ∧
      (reset_if_exhausted allFailedTracker
          (0, 0)).1.failed_strategies (0, 0) = []) ∧
    InteractionStrategy.TEXT_BASED ∈
      get_available_strategies freshTracker (0, 0) := by
  constructor
  · exact (available_strategies_amended allFailedTracker (0, 0)).2.1
      (by decide)
  · exact ((available_strategies_amended freshTracker (0, 0)).1
      .TEXT_BASED).mpr (by decide)

/-- Claim C6: when `should_try_alternative(loc)` holds, the tool walks
the fixed order ElementSearch, KeyboardNav, AlternativeCoordinates,
DirectClick restricted to the available strategies, records every
attempted strategy's outcome (as the fold of `record_attempt` over the
trace), stops at the first validated success with its SUCCESS message,
and otherwise records one final failure and returns the
all-strategies-exhausted message. -/
theorem enhanced_click_alt_behavior
    (env : InteractionStrategy → Bool × String) (loc : Int × Int)
    (now : Nat) (t : InteractionTracker)
    (h : should_try_alternative t loc = true) :
    (enhanced_click_tool env loc now t).2.1 =
      spec_msg env loc (strategy_order.filter
        (fun s => (reset_if_exhausted t loc).2.contains s)) ∧
    (enhanced_click_tool env loc now t).2.2 =
      spec_trace env (strategy_order.filter
        (fun s => (reset_if_exhausted t loc).2.contains s)) ∧
    (enhanced_click_tool env loc now t).1 =
      (enhanced_click_tool env loc now t).2.2.foldl
        (fun acc p => record_attempt acc loc p.1 p.2 now)
        (reset_if_exhausted t loc).1 := by
  simp only [enhanced_click_tool, h, if_true]
  exact try_strategies_spec env loc now (reset_if_exhausted t loc).2
    strategy_order (reset_if_exhausted t loc).1

/-- Witness for C6: with three global failures on the books and an
environment in which element search fails but keyboard navigation
validates, the tool attempts ElementSearch then KeyboardNav and stops
there with the keyboard-nav SUCCESS message. -/
theorem enhanced_click_alt_behavior_witness :
    (enhanced_click_tool
        (fun s => (s == InteractionStrategy.KEYBOARD_NAV, "ok"))
        (0, 0) 0
        { freshTracker with consecutive_failures := 3 }).2.1 =
      "SUCCESS with keyboard_nav: ok" ∧
    (enhanced_click_tool
        (fun s => (s == InteractionStrategy.KEYBOARD_NAV, "ok"))
        (0, 0) 0
        { freshTracker with consecutive_failures := 3 }).2.2 =
      [(InteractionStrategy.ELEMENT_SEARCH, false),
        (InteractionStrategy.KEYBOARD_NAV, true)] := by
  have h := enhanced_click_alt_behavior
    (fun s => (s == InteractionStrategy.KEYBOARD_NAV, "ok")) (0, 0) 0
    { freshTracker with consecutive_failures := 3 } (by decide)
  exact ⟨h.1.trans (by decide), h.2.1.trans (by decide)⟩

/-- The `ToolResult` record from the registry (`windows_use.agent.registry.views`). -/
structure ToolResult where
  is_success : Bool
  content : String
  error : String
deriving DecidableEq, Repr

/-- The `action` field of the oracle's parsed `agent_data`. -/
structure AgentAction where
  name : String
  params : List (String × PyVal)
deriving DecidableEq, Repr

/-- The part of the parsed oracle record the action and controller
nodes read (`agent_data.action`); the prose fields feed only logging
and prompts. -/
structure AgentData where
  action : AgentAction
deriving DecidableEq, Repr

/-- The fields of the LangGraph state dict that the embedded nodes
read or write; the message transcript feeds only prompt rendering. -/
structure AgentState where
  input : String
  steps : Nat
  max_steps : Nat
  output : Option String
  agent_data : Option AgentData
  previous_observation : Option String
deriving DecidableEq, Repr

/-- Source `EnhancedAgent.main_controller`: while `steps < max_steps`, route a
non-terminal action to the action node and the `Done Tool` sentinel to
the answer node; once `steps ≥ max_steps`, always route to answer.
Reading the action name off an absent `agent_data` raises in Python,
modelled as `none`. -/
def main_controller (st : AgentState) : Option String :=
  if st.steps < st.max_steps then
    match st.agent_data with
    | none => none
    | some ad =>
        if ad.action.name ≠ "Done Tool" then some "action"
        else some "answer"
  else some "answer"

/-- The unconditional graph edge `graph.add_edge('action', 'reason')`:
after any completed action cycle the run continues with reasoning. -/
def action_next_node : String := "reason"

/-- The guidance appended to the failure-limit observation. -/
def guidance_suffix : String :=
  ". You must try a fundamentally different approach - consider keyboard navigation, alternative UI elements, or different coordinates."

/-- The synthetic observation injected when a loop is detected. -/
def loop_error_message (name : String) : String :=
  "Infinite loop detected. Tried " ++ name ++
    " with same parameters repeatedly. Suggested alternatives: " ++
    String.intercalate "; " get_suggested_alternatives

/-- The update `{**state, agent_data: None, previous_observation: obs}`:
the state shape every action cycle ends with. -/
def set_observation (st : AgentState) (obs : String) : AgentState :=
  { st with agent_data := none, previous_observation := some obs }

/-- The state the answer node returns: cleared action, cleared
observation, output set to the executed result's content. -/
def set_output (st : AgentState) (content : String) : AgentState :=
  { st with agent_data := none, previous_observation := none, output := some content }

/-- What one action cycle produced: the updated state, the updated
loop detector, the consecutive-failure counter, and the list of
`registry.execute` dispatches issued during the cycle. -/
structure ActionOutcome where
  state : AgentState
  detector : LoopDetector
  failures : Nat
  dispatches : List (String × List (String × PyVal))
deriving Repr

/-- The try/except body of `EnhancedAgent.action` after the loop check:
dispatch the tool; a failed result increments the consecutive-failure
counter and a success zeroes it; once the updated counter reaches the
threshold the observation gets the FAILURE LIMIT prefix and guidance;
an exception increments the counter and yields a tool-execution-error
observation (with no such prefix). -/
def action_execute
    (exec : String → List (String × PyVal) → Except String ToolResult)
    (threshold failures : Nat) (det : LoopDetector) (st : AgentState)
    (ad : AgentData) : Option ActionOutcome :=
  let name := ad.action.name
  let params := ad.action.params
  match exec name params with
  | .ok tr =>
      let failures2 := if tr.is_success then 0 else failures + 1
      let base := if tr.is_success then tr.content else tr.error
      let obs :=
        if failures2 ≥ threshold then
          "FAILURE LIMIT REACHED: " ++ base ++ guidance_suffix
        else base
      some ⟨set_observation st obs, det, failures2, [(name, params)]⟩
  | .error e =>
      some ⟨set_observation st ("Tool execution error: " ++ e ++
          ". Try alternative approaches."), det, failures + 1,
        [(name, params)]⟩

/-- Source `EnhancedAgent.action`: when loop detection is on, first feed the
proposed action to the detector; a flagged loop short-circuits the
cycle with no dispatch, a cleared `agent_data` and the synthetic loop
observation; otherwise execute the tool as in `action_execute`. -/
def action
    (exec : String → List (String × PyVal) → Except String ToolResult)
    (loop_detection : Bool) (threshold failures : Nat)
    (det : LoopDetector) (st : AgentState) (now : Nat) :
    Option ActionOutcome :=
  match st.agent_data with
  | none => none
  | some ad =>
      if loop_detection then
        let r := add_action det ad.action.name ad.action.params now
        if r.2 then
          some ⟨set_observation st (loop_error_message ad.action.name),
            r.1, failures, []⟩
        else action_execute exec threshold failures r.1 st ad
      else action_execute exec threshold failures det st ad

/-- Source `EnhancedAgent.answer`: execute the pending action once more
through the registry (no desktop) and emit its content as the final
output; an exception here would propagate, modelled as `none`. -/
def answer
    (exec : String → List (String × PyVal) → Except String ToolResult)
    (st : AgentState) : Option AgentState :=
  match st.agent_data with
  | none => none
  | some ad =>
      match exec ad.action.name ad.action.params with
      | .error _ => none
      | .ok tr => some (set_output st tr.content)

/-- Claim C3: once `steps` has reached `max_steps`, the controller
routes to the answer node even though the pending action is
non-terminal, and the answer node completes normally, emitting the
executed result's content as the output. -/
theorem max_steps_routes_to_answer
    (exec : String → List (String × PyVal) → Except String ToolResult)
    (st : AgentState) (ad : AgentData) (tr : ToolResult)
    (h1 : st.max_steps ≤ st.steps)
    (h2 : st.agent_data = some ad)
    (h3 : ad.action.name ≠ "Done Tool")
    (h4 : exec ad.action.name ad.action.params = .ok tr) :
    main_controller st = some "answer" ∧
    answer exec st = some (set_output st tr.content) := by
  constructor
  · simp [main_controller, Nat.not_lt.mpr h1]
  · simp [answer, h2, h4]

/-- Witness for C3: at the step budget with a pending non-terminal
Click action, the controller answers and emits the partial content. -/
theorem max_steps_routes_to_answer_witness :
    main_controller
      { input := "q", steps := 5, max_steps := 5, output := none,
        agent_data := some ⟨⟨"Click", [("loc", .pair (100, 100))]⟩⟩,
        previous_observation := none } = some "answer" ∧
    (answer (fun _ _ => .ok ⟨true, "partial", ""⟩)
      { input := "q", steps := 5, max_steps := 5, output := none,
        agent_data := some ⟨⟨"Click", [("loc", .pair (100, 100))]⟩⟩,
        previous_observation := none }).map (fun s => s.output) =
      some (some "partial") := by
  have h := max_steps_routes_to_answer
    (fun _ _ => .ok ⟨true, "partial", ""⟩)
    { input := "q", steps := 5, max_steps := 5, output := none,
      agent_data := some ⟨⟨"Click", [("loc", .pair (100, 100))]⟩⟩,
      previous_observation := none }
    ⟨⟨"Click", [("loc", .pair (100, 100))]⟩⟩ ⟨true, "partial", ""⟩
    (by decide) rfl (by decide) rfl
  exact ⟨h.1, by rw [h.2]; rfl⟩

/-- Claim C4: when the detector flags the proposed action as a loop,
the action cycle issues zero dispatches, clears `agent_data`, and sets
`previous_observation` to the synthetic loop message, which spells out
the fixed list of suggested alternative approaches. -/
theorem loop_detected_blocks_dispatch
    (exec : String → List (String × PyVal) → Except String ToolResult)
    (threshold failures : Nat) (det : LoopDetector) (st : AgentState)
    (ad : AgentData) (now : Nat)
    (h1 : st.agent_data = some ad)
    (h2 : (add_action det ad.action.name ad.action.params now).2 = true) :
    action exec true threshold failures det st now =
      some ⟨set_observation st (loop_error_message ad.action.name),
        (add_action det ad.action.name ad.action.params now).1,
        failures, []⟩ ∧
    loop_error_message ad.action.name =
      "Infinite loop detected. Tried " ++ ad.action.name ++
        " with same parameters repeatedly. Suggested alternatives: " ++
        String.intercalate "; " get_suggested_alternatives := by
  constructor
  · simp [action, h1, h2]
  · rfl

/-- Detector that has already seen the same Click action twice. -/
def detTwoClicks : LoopDetector :=
  (add_action (add_action freshDetector "Click"
    [("loc", .pair (100, 100))] 0).1 "Click"
    [("loc", .pair (100, 100))] 1).1

/-- State proposing that same Click action a third time. -/
def stClick : AgentState :=
  { input := "q", steps := 3, max_steps := 100, output := none,
    agent_data := some ⟨⟨"Click", [("loc", .pair (100, 100))]⟩⟩,
    previous_observation := none }

/-- Witness for C4: the third identical Click action is flagged and
its cycle performs no dispatch, clears the action and injects the loop
observation. -/
theorem loop_detected_blocks_dispatch_witness :
    action (fun _ _ => .ok ⟨true, "clicked", ""⟩) true 5 0
      detTwoClicks stClick 2 =
      some ⟨set_observation stClick (loop_error_message "Click"),
        (add_action detTwoClicks "Click"
          [("loc", .pair (100, 100))] 2).1, 0, []⟩ :=
  (loop_detected_blocks_dispatch (fun _ _ => .ok ⟨true, "clicked", ""⟩)
    5 0 detTwoClicks stClick
    ⟨⟨"Click", [("loc", .pair (100, 100))]⟩⟩ 2 rfl (by decide)).1

set_option maxRecDepth 8192 in
/-- Claim C9 counterexample: with the default threshold 5 and the
counter at 4, a dispatch that raises drives the counter to the
threshold, yet the observation is the tool-execution-error text with
no FAILURE-LIMIT prefix. -/
theorem failure_limit_marker_counterexample :
    (action (fun _ _ => .error "boom") true 5 4 freshDetector
        stClick 0).map
      (fun o => (o.failures, o.state.previous_observation)) =
      some (5, some
        "Tool execution error: boom. Try alternative approaches.") ∧
    ("FAILURE LIMIT REACHED".data.isPrefixOf
      "Tool execution error: boom. Try alternative approaches.".data)
      = false := by
  exact ⟨rfl, by decide⟩

/-- Claim C9 (amended): when the dispatch returns a failed result and
the incremented counter reaches the threshold, the observation is
prefixed with the FAILURE-LIMIT marker plus guidance; when the
dispatch raises, the counter still increments but the observation is
the unprefixed tool-execution-error text; either way the cycle
completes normally and the graph continues to the reason node. -/
theorem failure_limit_marker_amended
    (exec : String → List (String × PyVal) → Except String ToolResult)
    (threshold failures : Nat) (det : LoopDetector) (st : AgentState)
    (ad : AgentData) (now : Nat) (tr : ToolResult) (e : String)
    (h1 : st.agent_data = some ad)
    (h2 : (add_action det ad.action.name ad.action.params now).2
      = false) :
    (exec ad.action.name ad.action.params = .ok tr →
      tr.is_success = false → threshold ≤ failures + 1 →
      action exec true threshold failures det st now =
        some ⟨set_observation st ("FAILURE LIMIT REACHED: " ++
            tr.error ++ guidance_suffix),
          (add_action det ad.action.name ad.action.params now).1,
          failures + 1, [(ad.action.name, ad.action.params)]⟩) ∧
    (exec ad.action.name ad.action.params = .error e →
      action exec true threshold failures det st now =
        some ⟨set_observation st ("Tool execution error: " ++
            e ++ ". Try alternative approaches."),
          (add_action det ad.action.name ad.action.params now).1,
          failures + 1, [(ad.action.name, ad.action.params)]⟩) ∧
    action_next_node = "reason" := by
  refine ⟨?_, ?_, rfl⟩
  · intro hx hf hth
    simp [action, h1, h2, action_execute, hx, hf, hth]
  · intro hx
    simp [action, h1, h2, action_execute, hx]

/-- Witness for the amended C9: counter at 4, threshold 5, a failed
Click dispatch yields the FAILURE-LIMIT observation. -/
theorem failure_limit_marker_amended_witness :
    action (fun _ _ => .ok ⟨false, "", "no element"⟩) true 5 4
      freshDetector stClick 0 =
      some ⟨set_observation stClick ("FAILURE LIMIT REACHED: " ++
          "no element" ++ guidance_suffix),
        (add_action freshDetector "Click"
          [("loc", .pair (100, 100))] 0).1, 5,
        [("Click", [("loc", .pair (100, 100))])]⟩ :=
  ((failure_limit_marker_amended
      (fun _ _ => .ok ⟨false, "", "no element"⟩) 5 4 freshDetector
      stClick ⟨⟨"Click", [("loc", .pair (100, 100))]⟩⟩ 0
      ⟨false, "", "no element"⟩ "x" rfl (by decide)).1
    rfl rfl (by decide))

end WindowsUse
